import Mathlib

/-!
Verification of the filtering-and-aggregation core of the Student
Performance Dashboard (`src/student.py`) against its natural-language
specification.

The script is UI glue over a pandas dataframe; the core logic is:
  * the fallback dataset literal (lines 15-23);
  * the boolean-mask filter chain building `filtered_df` (lines 51-57);
  * the empty-result guard `st.stop` (lines 59-61);
  * the KPI averages `avg_marks` / `avg_attendance` (lines 66-67) and the
    performance-tier branching (lines 78-84);
  * the name search `result` (lines 121-127);
  * the `top_students` view (lines 131-134).

We embed each of these as a pure Lean function over lists of records.
Marks and attendance are embedded as integers (the fallback data and the
slider are integral); averages are rationals, with Python `round(x, 2)`
embedded as round-half-to-even at two decimal places.
-/

/-- One row of the dataframe: the columns `Name, Course, City, Gender,
Marks, Attendance (%)`. -/
structure StudentRecord where
  name : String
  course : String
  city : String
  gender : String
  marks : Int
  attendance : Int
deriving DecidableEq, Repr

/-- The sidebar filter controls (lines 30-49): `course_filter` from the
selectbox, `city_filter` from the multiselect, `min_marks` from the
slider, `gender_filter` from the radio. -/
structure FilterCriteria where
  course_filter : String
  city_filter : List String
  min_marks : Int
  gender_filter : String
deriving DecidableEq, Repr

/-- The fallback dataset `data` (lines 15-23), substituted when
`students_data.csv` is missing. -/
def data : List StudentRecord :=
  [ ⟨"Alice", "Math", "New York", "Female", 95, 98⟩,
    ⟨"Bob", "Science", "Los Angeles", "Male", 82, 85⟩,
    ⟨"Charlie", "Math", "New York", "Male", 78, 76⟩,
    ⟨"David", "English", "Chicago", "Male", 91, 92⟩,
    ⟨"Eve", "Science", "Los Angeles", "Female", 65, 60⟩,
    ⟨"Fiona", "Math", "New York", "Female", 88, 90⟩,
    ⟨"George", "English", "Chicago", "Male", 72, 75⟩,
    ⟨"Hannah", "Science", "Los Angeles", "Female", 98, 99⟩,
    ⟨"Ian", "Math", "New York", "Male", 55, 50⟩,
    ⟨"Jasmine", "English", "Chicago", "Female", 85, 88⟩ ]

/-- The filter chain of lines 51-57: start from a copy of `df`, restrict
by course when the selection is not `"All"`, then keep rows whose city is
in the multiselect list, then rows with `Marks >= min_marks`, then
restrict by gender when the selection is not `"All"`. -/
def filtered_df (df : List StudentRecord) (c : FilterCriteria) : List StudentRecord :=
  let d1 := if c.course_filter ≠ "All"
    then df.filter (fun r => r.course == c.course_filter) else df
  let d2 := d1.filter (fun r => c.city_filter.contains r.city)
  let d3 := d2.filter (fun r => decide (c.min_marks ≤ r.marks))
  if c.gender_filter ≠ "All"
    then d3.filter (fun r => r.gender == c.gender_filter) else d3

/-- The conjunction of the four filter conditions as the spec states them
for `apply_filters`. -/
def matches_criteria (c : FilterCriteria) (r : StudentRecord) : Bool :=
  (c.course_filter == "All" || r.course == c.course_filter) &&
  c.city_filter.contains r.city &&
  decide (c.min_marks ≤ r.marks) &&
  (c.gender_filter == "All" || r.gender == c.gender_filter)

/-- First-occurrence deduplication, the order `pandas.Series.unique`
uses for the widget option lists (lines 32 and 36). -/
def unique_vals (l : List String) : List String :=
  l.foldl (fun acc x => if x ∈ acc then acc else acc ++ [x]) []

/-- The option list of the city multiselect (lines 34-38):
`["All"] + list(df["City"].unique())`.  The literal string `"All"` is
offered as just another option. -/
def city_options (df : List StudentRecord) : List String :=
  "All" :: unique_vals (df.map (fun r => r.city))

/-- Round a rational to the nearest integer, ties to the nearest even
integer: the rounding Python `round` performs. -/
def round_half_even (q : ℚ) : ℤ :=
  if q - ⌊q⌋ < 1/2 then ⌊q⌋
  else if (1:ℚ)/2 < q - ⌊q⌋ then ⌊q⌋ + 1
  else if ⌊q⌋ % 2 = 0 then ⌊q⌋ else ⌊q⌋ + 1

/-- Python `round(q, 2)`: round to two decimal places, half to even. -/
def round2 (q : ℚ) : ℚ := (round_half_even (q * 100) : ℚ) / 100

/-- Line 66: `avg_marks = round(filtered_df["Marks"].mean(), 2)`. -/
def avg_marks (subset : List StudentRecord) : ℚ :=
  round2 ((subset.map (fun r => (r.marks : ℚ))).sum / (subset.length : ℚ))

/-- Line 67: `avg_attendance = round(filtered_df["Attendance (%)"].mean(), 2)`. -/
def avg_attendance (subset : List StudentRecord) : ℚ :=
  round2 ((subset.map (fun r => (r.attendance : ℚ))).sum / (subset.length : ℚ))

/-- The performance-tier branching of lines 78-84, abstracted to the
categorical label each branch surfaces: `avg > 85` is excellent,
`avg >= 70` (elif) is good, anything else needs improvement. -/
def performance_tier (avg : ℚ) : String :=
  if avg > 85 then "excellent"
  else if avg ≥ 70 then "good"
  else "needs_improvement"

/-- Case folding of a name at the character level, standing for the
`case=False` comparison of line 123. -/
def fold_chars (s : String) : List Char := s.data.map Char.toLower

/-- Does the character list `hay` start with `needle`? -/
def list_starts : List Char → List Char → Bool
  | _, [] => true
  | [], _ :: _ => false
  | a :: as, b :: bs => a == b && list_starts as bs

/-- Does `needle` occur contiguously anywhere inside `hay`? -/
def list_has_sub : List Char → List Char → Bool
  | [], needle => needle.isEmpty
  | a :: t, needle => list_starts (a :: t) needle || list_has_sub t needle

/-- The spec's reading of the search predicate for `search_by_name`:
case-insensitive substring match of the query in the name.  This is the
spec-side definition of a refinement comparison; the code-side predicate
is `row_regex_match` below, since `str.contains` treats the query as a
regular expression. -/
def spec_substring_match (query : String) (r : StudentRecord) : Bool :=
  list_has_sub (fold_chars r.name) (fold_chars query)

/-- The characters Python `re` treats as special: a query containing any
of them is not a plain substring pattern. -/
def is_metachar (c : Char) : Bool :=
  ['.', '^', '$', '*', '+', '?', '\x7b', '\x7d', '[', ']', '\\', '|', '(', ')'].contains c

/-- One element of a compiled search pattern: the `.` wildcard or a
(case-folded) literal character. -/
inductive RegexAtom where
  | dot : RegexAtom
  | lit : Char → RegexAtom
deriving DecidableEq, Repr

/-- Compile the query of line 123 the way `re` reads it, for the fragment
this model covers: a plain sequence of literal characters and the `.`
wildcard, literals case-folded for `case=False`.  A query holding any
other metacharacter — which Python would interpret structurally, or
reject with `re.error` — is outside the model: `none`. -/
def parse_chars : List Char → Option (List RegexAtom)
  | [] => some []
  | c :: cs =>
    match parse_chars cs with
    | none => none
    | some l =>
      if c = '.' then some (.dot :: l)
      else if is_metachar c then none
      else some (.lit c.toLower :: l)

/-- Compile a query string; see `parse_chars`. -/
def parse_pattern (q : String) : Option (List RegexAtom) := parse_chars q.data

/-- Does the pattern match a prefix of the character list?  Each atom
consumes one character: `dot` matches anything, `lit` the equal
character. -/
def atoms_match : List RegexAtom → List Char → Bool
  | [], _ => true
  | _ :: _, [] => false
  | a :: ps, c :: cs =>
    (match a with
     | .dot => true
     | .lit x => x == c) && atoms_match ps cs

/-- The `re.search` behaviour behind `str.contains`: try the pattern at
every start position. -/
def regex_search (pat : List RegexAtom) : List Char → Bool
  | [] => atoms_match pat []
  | c :: cs => atoms_match pat (c :: cs) || regex_search pat cs

/-- One row passes the search of line 123
(`df["Name"].str.contains(search_name, case=False, na=False)`): the
compiled pattern matches somewhere in the case-folded name. -/
def row_regex_match (pat : List RegexAtom) (r : StudentRecord) : Bool :=
  regex_search pat (fold_chars r.name)

/-- The search of lines 121-127: the filter over the FULL dataframe `df`
runs only under the `if search_name:` guard, so an empty query produces
no rows at all; a query outside the modelled regex fragment is `none`. -/
def search_result (df : List StudentRecord) (search_name : String) :
    Option (List StudentRecord) :=
  if search_name = "" then some []
  else (parse_pattern search_name).map (fun pat => df.filter (row_regex_match pat))

/-- Sort key of line 132: `sort_values(by="Marks", ascending=False)`,
marks descending. -/
def marks_desc (a b : StudentRecord) : Prop := b.marks ≤ a.marks

instance : DecidableRel marks_desc :=
  fun a b => inferInstanceAs (Decidable (b.marks ≤ a.marks))

instance : IsTotal StudentRecord marks_desc := ⟨fun a b => le_total b.marks a.marks⟩

instance : IsTrans StudentRecord marks_desc :=
  ⟨fun _ _ _ h1 h2 => le_trans h2 h1⟩

/-- Line 132: `top_students = df[df["Marks"] > 90].sort_values(by="Marks",
ascending=False)` — filter the FULL dataframe to marks strictly above 90,
then sort by marks descending. -/
def top_students (df : List StudentRecord) : List StudentRecord :=
  List.insertionSort marks_desc (df.filter (fun r => decide (90 < r.marks)))

/-- The user-driven inputs of one recomputation pass: the sidebar
criteria, the search text (line 121), and the two buttons
(lines 131 and 138). -/
structure Interaction where
  criteria : FilterCriteria
  search_name : String
  top_clicked : Bool
  all_clicked : Bool

/-- What one pass of the script renders.  `none` means the corresponding
widget was never reached or its branch not taken. -/
structure DashboardView where
  no_data_warning : Bool
  total_students : Option Nat
  kpi_avg_marks : Option ℚ
  kpi_avg_attendance : Option ℚ
  tier_msg : Option String
  search_view : Option (Option (List StudentRecord))
  top_view : Option (List StudentRecord)
  full_view : Option (List StudentRecord)

/-- One full recomputation pass of the script body (lines 51-139): build
`filtered_df`; if it is empty, warn and `st.stop()` (lines 59-61), so
nothing further renders; otherwise emit the KPIs, the tier message, and
the three optional views over the full `df`. -/
def run_dashboard (df : List StudentRecord) (i : Interaction) : DashboardView :=
  let fd := filtered_df df i.criteria
  if fd.isEmpty then
    ⟨true, none, none, none, none, none, none, none⟩
  else
    ⟨false, some fd.length, some (avg_marks fd), some (avg_attendance fd),
     some (performance_tier (avg_marks fd)),
     if i.search_name ≠ "" then some (search_result df i.search_name) else none,
     if i.top_clicked then some (top_students df) else none,
     if i.all_clicked then some df else none⟩

/-- The sequential boolean-mask chain of lines 51-57 computes exactly the
filter by the conjunction of the four criteria. -/
lemma filtered_df_eq_filter (df : List StudentRecord) (c : FilterCriteria) :
    filtered_df df c = df.filter (matches_criteria c) := by
  unfold filtered_df matches_criteria
  by_cases hc : c.course_filter = "All" <;> by_cases hg : c.gender_filter = "All" <;>
    simp [hc, hg, List.filter_filter] <;>
    apply List.filter_congr <;> intro x _ <;>
    cases h1 : (c.city_filter.contains x.city) <;>
    cases h2 : (decide (c.min_marks ≤ x.marks)) <;>
    cases h3 : (x.course == c.course_filter) <;>
    cases h4 : (x.gender == c.gender_filter) <;> simp_all [List.elem_eq_mem]

/-- Claim C1: for every record sequence and criteria, the filter chain
returns exactly the records satisfying the conjunction of the four
conditions (course matches or course filter is "All", city is in the
selected list, marks at least `min_marks`, gender matches or gender
filter is "All"); and an empty city selection yields the empty subset. -/
theorem apply_filters_conjunction :
    (∀ (df : List StudentRecord) (c : FilterCriteria),
      filtered_df df c = df.filter (matches_criteria c)) ∧
    (∀ (df : List StudentRecord) (c : FilterCriteria),
      c.city_filter = [] → filtered_df df c = []) := by
  refine ⟨fun df c => filtered_df_eq_filter df c, fun df c h => ?_⟩
  rw [filtered_df_eq_filter]
  apply List.filter_eq_nil_iff.mpr
  intro r _
  simp [matches_criteria, h]

/-- Witness for claim C1 at the fallback dataset with an empty city
selection. -/
theorem apply_filters_conjunction_witness :
    filtered_df data ⟨"Math", [], 50, "All"⟩ = [] :=
  apply_filters_conjunction.2 data ⟨"Math", [], 50, "All"⟩ rfl

/-- Claim C8: for every record sequence and criteria the filter chain
returns a subsequence of its input — no record is fabricated and the
relative order of the input is preserved. -/
theorem apply_filters_sublist (df : List StudentRecord) (c : FilterCriteria) :
    List.Sublist (filtered_df df c) df := by
  rw [filtered_df_eq_filter]
  exact List.filter_sublist df

/-- Witness for claim C8 at the fallback dataset. -/
theorem apply_filters_sublist_witness :
    List.Sublist (filtered_df data ⟨"Math", ["New York"], 0, "All"⟩) data :=
  apply_filters_sublist data ⟨"Math", ["New York"], 0, "All"⟩

/-- Claim C10: the string "All" is offered as an option of the city
multiselect, but it is matched as a literal city value, not a wildcard:
over any record set in which no record has city "All", selecting only
"All" (with course and gender unrestricted, any minimum marks) yields the
empty subset. -/
theorem city_all_literal :
    "All" ∈ city_options data ∧
    ∀ (records : List StudentRecord) (m : Int),
      (∀ r ∈ records, r.city ≠ "All") →
      filtered_df records ⟨"All", ["All"], m, "All"⟩ = [] := by
  refine ⟨List.mem_cons_self _ _, fun records m h => ?_⟩
  rw [filtered_df_eq_filter]
  apply List.filter_eq_nil_iff.mpr
  intro r hr
  simp [matches_criteria]
  intro habs
  exact absurd habs (h r hr)

/-- Witness for claim C10 at the fallback dataset, whose cities are New
York, Los Angeles and Chicago only. -/
theorem city_all_literal_witness :
    filtered_df data ⟨"All", ["All"], 0, "All"⟩ = [] :=
  city_all_literal.2 data 0 (by decide)

/-- Claim C4: whenever the filter chain yields zero records, the pass
surfaces the no-data warning and none of the KPI metrics is computed, so
the division behind the averages is never attempted; in particular the
criteria (course "All", no city selected, minimum marks 0, gender "All")
yield the empty subset. -/
theorem empty_filter_guard :
    (∀ (df : List StudentRecord) (i : Interaction),
      filtered_df df i.criteria = [] →
      (run_dashboard df i).no_data_warning = true ∧
      (run_dashboard df i).total_students = none ∧
      (run_dashboard df i).kpi_avg_marks = none ∧
      (run_dashboard df i).kpi_avg_attendance = none ∧
      (run_dashboard df i).tier_msg = none) ∧
    filtered_df data ⟨"All", [], 0, "All"⟩ = [] := by
  refine ⟨fun df i h => ?_, by decide⟩
  simp [run_dashboard, h]

/-- Witness for claim C4: the scenario-C criteria on the fallback
dataset. -/
theorem empty_filter_guard_witness :
    (run_dashboard data ⟨⟨"All", [], 0, "All"⟩, "an", true, true⟩).no_data_warning = true ∧
    (run_dashboard data ⟨⟨"All", [], 0, "All"⟩, "an", true, true⟩).total_students = none ∧
    (run_dashboard data ⟨⟨"All", [], 0, "All"⟩, "an", true, true⟩).kpi_avg_marks = none ∧
    (run_dashboard data ⟨⟨"All", [], 0, "All"⟩, "an", true, true⟩).kpi_avg_attendance = none ∧
    (run_dashboard data ⟨⟨"All", [], 0, "All"⟩, "an", true, true⟩).tier_msg = none :=
  empty_filter_guard.1 data ⟨⟨"All", [], 0, "All"⟩, "an", true, true⟩ empty_filter_guard.2

/-- Claim C9: when the filtered subset is empty the pass halts at the
`st.stop` guard, so no search view, top-performers view or full-dataset
view is produced in that pass, even though those operations read the
full original record set. -/
theorem empty_filter_stops_views (df : List StudentRecord) (i : Interaction)
    (h : filtered_df df i.criteria = []) :
    (run_dashboard df i).search_view = none ∧
    (run_dashboard df i).top_view = none ∧
    (run_dashboard df i).full_view = none := by
  simp [run_dashboard, h]

/-- Witness for claim C9: criteria that match nothing, with a search
query entered and both buttons pressed, still render no views. -/
theorem empty_filter_stops_views_witness :
    (run_dashboard data ⟨⟨"Math", [], 0, "Male"⟩, "an", true, true⟩).search_view = none ∧
    (run_dashboard data ⟨⟨"Math", [], 0, "Male"⟩, "an", true, true⟩).top_view = none ∧
    (run_dashboard data ⟨⟨"Math", [], 0, "Male"⟩, "an", true, true⟩).full_view = none :=
  empty_filter_stops_views data ⟨⟨"Math", [], 0, "Male"⟩, "an", true, true⟩ (by decide)

/-- Claim C5: for every non-empty subset the tier derived from the
average marks is "excellent" exactly when the average exceeds 85, "good"
exactly when it lies in the closed interval from 70 to 85, and
"needs_improvement" exactly when it is below 70. -/
theorem tier_boundaries (subset : List StudentRecord) (_h : subset ≠ []) :
    (performance_tier (avg_marks subset) = "excellent" ↔ 85 < avg_marks subset) ∧
    (performance_tier (avg_marks subset) = "good" ↔
      70 ≤ avg_marks subset ∧ avg_marks subset ≤ 85) ∧
    (performance_tier (avg_marks subset) = "needs_improvement" ↔ avg_marks subset < 70) := by
  generalize avg_marks subset = q
  unfold performance_tier
  by_cases h1 : 85 < q
  · simp only [if_pos h1]
    refine ⟨⟨fun _ => h1, fun _ => trivial⟩, ?_, ?_⟩
    · exact ⟨fun he => absurd he (by decide), fun hc => absurd hc.2 (not_le.mpr h1)⟩
    · exact ⟨fun he => absurd he (by decide),
        fun hl => absurd (lt_trans hl (by norm_num)) (lt_asymm h1)⟩
  · by_cases h2 : 70 ≤ q
    · simp only [if_neg h1, if_pos h2]
      refine ⟨⟨fun he => absurd he (by decide), fun hc => absurd hc h1⟩, ?_, ?_⟩
      · exact ⟨fun _ => ⟨h2, not_lt.mp h1⟩, fun _ => trivial⟩
      · exact ⟨fun he => absurd he (by decide), fun hl => absurd hl (not_lt.mpr h2)⟩
    · simp only [if_neg h1, if_neg h2]
      refine ⟨⟨fun he => absurd he (by decide), fun hc => absurd hc h1⟩, ?_, ?_⟩
      · exact ⟨fun he => absurd he (by decide), fun hc => absurd hc.1 h2⟩
      · exact ⟨fun _ => not_le.mp h2, fun _ => trivial⟩

/-- Witness for claim C5 at the one-record subset holding Alice. -/
theorem tier_boundaries_witness :
    (performance_tier (avg_marks [⟨"Alice", "Math", "New York", "Female", 95, 98⟩]) =
      "excellent" ↔ 85 < avg_marks [⟨"Alice", "Math", "New York", "Female", 95, 98⟩]) ∧
    (performance_tier (avg_marks [⟨"Alice", "Math", "New York", "Female", 95, 98⟩]) =
      "good" ↔ 70 ≤ avg_marks [⟨"Alice", "Math", "New York", "Female", 95, 98⟩] ∧
        avg_marks [⟨"Alice", "Math", "New York", "Female", 95, 98⟩] ≤ 85) ∧
    (performance_tier (avg_marks [⟨"Alice", "Math", "New York", "Female", 95, 98⟩]) =
      "needs_improvement" ↔
        avg_marks [⟨"Alice", "Math", "New York", "Female", 95, 98⟩] < 70) :=
  tier_boundaries [⟨"Alice", "Math", "New York", "Female", 95, 98⟩] (by decide)

/-- A query free of metacharacters compiles to the sequence of its
case-folded characters as literal atoms. -/
lemma parse_chars_no_meta (cs : List Char) (h : ∀ c ∈ cs, is_metachar c = false) :
    parse_chars cs = some (cs.map (fun c => RegexAtom.lit c.toLower)) := by
  induction cs with
  | nil => rfl
  | cons c t ih =>
    have hc : is_metachar c = false := h c (List.mem_cons_self c t)
    have hdot : c ≠ '.' := by
      intro e
      rw [e] at hc
      exact absurd hc (by decide)
    simp [parse_chars, ih (fun x hx => h x (List.mem_cons_of_mem c hx)), hdot, hc]

/-- A pattern of literal atoms matches a prefix exactly when the
character list starts with those literals. -/
lemma atoms_match_lit (cs : List Char) (s : List Char) :
    atoms_match (cs.map RegexAtom.lit) s = list_starts s cs := by
  induction cs generalizing s with
  | nil => cases s <;> rfl
  | cons b bs ih =>
    cases s with
    | nil => rfl
    | cons a t => simp [atoms_match, list_starts, ih, Bool.beq_comm]

/-- Searching a pattern of literal atoms is exactly the substring test. -/
lemma regex_search_lit (cs : List Char) (s : List Char) :
    regex_search (cs.map RegexAtom.lit) s = list_has_sub s cs := by
  induction s with
  | nil => cases cs <;> simp [regex_search, atoms_match, list_has_sub]
  | cons a t ih => simp [regex_search, list_has_sub, atoms_match_lit, ih]

/-- On metacharacter-free queries the code's regex search coincides with
the spec's case-insensitive substring search. -/
lemma search_result_no_meta (df : List StudentRecord) (q : String) (hq : q ≠ "")
    (hm : ∀ c ∈ q.data, is_metachar c = false) :
    search_result df q = some (df.filter (spec_substring_match q)) := by
  unfold search_result parse_pattern
  rw [if_neg hq, parse_chars_no_meta q.data hm, Option.map_some']
  congr 1
  apply List.filter_congr
  intro r _
  unfold row_regex_match spec_substring_match fold_chars
  have hmap : q.data.map (fun c => RegexAtom.lit c.toLower) =
      (q.data.map Char.toLower).map RegexAtom.lit := by
    rw [List.map_map]
    rfl
  rw [hmap, regex_search_lit]

/-- Claim C6 counterexample: the search treats the query as a regular
expression, not a literal substring.  At query "." the code matches every
name of the fallback dataset (the wildcard matches any character), yet no
case-folded name contains the character "." as a substring, so the
substring characterization the claim asserts fails. -/
theorem search_substring_claim_false :
    search_result data "." = some data ∧
    data.filter (spec_substring_match ".") = [] ∧
    search_result data "." ≠ some (data.filter (spec_substring_match ".")) := by
  exact ⟨by decide, by decide, by decide⟩

/-- Claim C6 as amended: the search runs a case-insensitive REGEX match
over the FULL original record set (pandas `str.contains` defaults to
`regex=True`), returns matches in original order, and with an empty query
returns an empty result; for queries free of regex metacharacters the
match coincides with case-insensitive substring match; on the fallback
dataset the query "an" (in either letter case) matches exactly Hannah
then Ian. -/
theorem search_by_name_regex_spec :
    (∀ df : List StudentRecord, search_result df "" = some []) ∧
    (∀ (df : List StudentRecord) (q : String) (l : List StudentRecord),
      search_result df q = some l → List.Sublist l df) ∧
    (∀ (df : List StudentRecord) (q : String), q ≠ "" →
      (∀ c ∈ q.data, is_metachar c = false) →
      search_result df q = some (df.filter (spec_substring_match q))) ∧
    (search_result data "an").map (fun l => l.map (fun r => r.name)) =
      some ["Hannah", "Ian"] ∧
    (search_result data "AN").map (fun l => l.map (fun r => r.name)) =
      some ["Hannah", "Ian"] := by
  refine ⟨fun df => rfl, fun df q l h => ?_,
    fun df q hq hm => search_result_no_meta df q hq hm, by decide, by decide⟩
  unfold search_result at h
  by_cases hq : q = ""
  · rw [if_pos hq] at h
    injection h with h2
    rw [← h2]
    exact List.nil_sublist df
  · rw [if_neg hq] at h
    cases hp : parse_pattern q with
    | none =>
      rw [hp] at h
      exact absurd h (by simp)
    | some pat =>
      rw [hp, Option.map_some'] at h
      injection h with h2
      rw [← h2]
      exact List.filter_sublist df

/-- Witness for claim C6: the metacharacter-free query "an" searched over
the fallback dataset reduces to the substring filter. -/
theorem search_by_name_regex_spec_witness :
    search_result data "an" = some (data.filter (spec_substring_match "an")) :=
  search_by_name_regex_spec.2.2.1 data "an" (by decide) (by decide)

/-- Claim C7: the top-performers view holds exactly the records of the
full original set with marks strictly above 90 — a record with marks
exactly 90 is never included — and is sorted by marks descending. -/
theorem top_performers_spec (df : List StudentRecord) :
    (∀ r : StudentRecord, r ∈ top_students df ↔ r ∈ df ∧ 90 < r.marks) ∧
    List.Sorted marks_desc (top_students df) ∧
    List.Perm (top_students df) (df.filter (fun r => decide (90 < r.marks))) := by
  refine ⟨fun r => ?_, ?_, ?_⟩
  · rw [show top_students df =
        List.insertionSort marks_desc (df.filter (fun r => decide (90 < r.marks))) from rfl]
    rw [(List.perm_insertionSort marks_desc _).mem_iff, List.mem_filter]
    simp
  · exact List.sorted_insertionSort marks_desc _
  · exact List.perm_insertionSort marks_desc _

/-- Witness for claim C7 at the fallback dataset. -/
theorem top_performers_spec_witness :
    (∀ r : StudentRecord, r ∈ top_students data ↔ r ∈ data ∧ 90 < r.marks) ∧
    List.Sorted marks_desc (top_students data) ∧
    List.Perm (top_students data) (data.filter (fun r => decide (90 < r.marks))) :=
  top_performers_spec data

/-- The scenario-A criteria (course "Math", city "New York", minimum
marks 0, gender "All") select four rows of the fallback dataset: Fiona
(Math, New York, 88) qualifies along with Alice, Charlie and Ian. -/
lemma scenarioA_subset :
    filtered_df data ⟨"Math", ["New York"], 0, "All"⟩ =
      [ ⟨"Alice", "Math", "New York", "Female", 95, 98⟩,
        ⟨"Charlie", "Math", "New York", "Male", 78, 76⟩,
        ⟨"Fiona", "Math", "New York", "Female", 88, 90⟩,
        ⟨"Ian", "Math", "New York", "Male", 55, 50⟩ ] := by decide

/-- The scenario-B criteria (course "All", every city, minimum marks 90,
gender "All") select three rows of the fallback dataset: David (English,
Chicago, 91) qualifies along with Alice and Hannah, since the bound is
inclusive. -/
lemma scenarioB_subset :
    filtered_df data ⟨"All", ["New York", "Los Angeles", "Chicago"], 90, "All"⟩ =
      [ ⟨"Alice", "Math", "New York", "Female", 95, 98⟩,
        ⟨"David", "English", "Chicago", "Male", 91, 92⟩,
        ⟨"Hannah", "Science", "Los Angeles", "Female", 98, 99⟩ ] := by decide

/-- Claim C2 counterexample: on the fallback dataset the scenario-A
criteria also select Fiona (whom the claim omits), so the subset is not
the claimed set of names and the average is not 76. -/
theorem scenarioA_claim_false :
    (⟨"Fiona", "Math", "New York", "Female", 88, 90⟩ : StudentRecord) ∈
      filtered_df data ⟨"Math", ["New York"], 0, "All"⟩ ∧
    (filtered_df data ⟨"Math", ["New York"], 0, "All"⟩).map (fun r => r.name) ≠
      ["Alice", "Charlie", "Ian"] ∧
    avg_marks (filtered_df data ⟨"Math", ["New York"], 0, "All"⟩) ≠ 76 := by
  refine ⟨by decide, by decide, ?_⟩
  rw [scenarioA_subset]
  norm_num [avg_marks, round2, round_half_even]

/-- Claim C2 as amended: the scenario-A criteria select Alice, Charlie,
Fiona and Ian (the four Math/New York rows), the rounded average of
(95 + 78 + 88 + 55) / 4 is 79, and the tier is "good". -/
theorem scenarioA_actual :
    (filtered_df data ⟨"Math", ["New York"], 0, "All"⟩).map (fun r => r.name) =
      ["Alice", "Charlie", "Fiona", "Ian"] ∧
    avg_marks (filtered_df data ⟨"Math", ["New York"], 0, "All"⟩) = 79 ∧
    performance_tier (avg_marks (filtered_df data ⟨"Math", ["New York"], 0, "All"⟩)) =
      "good" := by
  have ha : avg_marks (filtered_df data ⟨"Math", ["New York"], 0, "All"⟩) = 79 := by
    rw [scenarioA_subset]
    norm_num [avg_marks, round2, round_half_even]
  refine ⟨by decide, ha, ?_⟩
  rw [ha]
  norm_num [performance_tier]

/-- Claim C3 counterexample: on the fallback dataset the scenario-B
criteria also select David, whose marks 91 pass the inclusive bound 90,
so the subset is not the claimed pair and the average is not 96.5. -/
theorem scenarioB_claim_false :
    (⟨"David", "English", "Chicago", "Male", 91, 92⟩ : StudentRecord) ∈
      filtered_df data ⟨"All", ["New York", "Los Angeles", "Chicago"], 90, "All"⟩ ∧
    (filtered_df data ⟨"All", ["New York", "Los Angeles", "Chicago"], 90, "All"⟩).map
      (fun r => r.name) ≠ ["Alice", "Hannah"] ∧
    avg_marks (filtered_df data ⟨"All", ["New York", "Los Angeles", "Chicago"], 90, "All"⟩) ≠
      193/2 := by
  refine ⟨by decide, by decide, ?_⟩
  rw [scenarioB_subset]
  norm_num [avg_marks, round2, round_half_even]

/-- Claim C3 as amended: the scenario-B criteria select Alice, David and
Hannah, the rounded average of (95 + 91 + 98) / 3 is 94.67, and the tier
is "excellent". -/
theorem scenarioB_actual :
    (filtered_df data ⟨"All", ["New York", "Los Angeles", "Chicago"], 90, "All"⟩).map
      (fun r => r.name) = ["Alice", "David", "Hannah"] ∧
    avg_marks (filtered_df data ⟨"All", ["New York", "Los Angeles", "Chicago"], 90, "All"⟩) =
      9467/100 ∧
    performance_tier
      (avg_marks (filtered_df data ⟨"All", ["New York", "Los Angeles", "Chicago"], 90, "All"⟩)) =
      "excellent" := by
  have ha : avg_marks
      (filtered_df data ⟨"All", ["New York", "Los Angeles", "Chicago"], 90, "All"⟩) =
      9467/100 := by
    rw [scenarioB_subset]
    norm_num [avg_marks, round2, round_half_even]
  refine ⟨by decide, ha, ?_⟩
  rw [ha]
  norm_num [performance_tier]
